import Mathlib

/-!
Shallow embedding of the `textsynth` client library (a typed Rust client for
a remote text-generation API) and verification of its specification.

The embedding follows the source files:
  * `src/engine/definition.rs` — engine catalog (`EngineDefinition`),
  * `src/engine/text_completion.rs` — validated parameter types
    (`MaxTokens`, `TopP`, `TopK`, `Stop`), the request builder, the request
    payload serialization and the streaming response decoder,
  * `src/error.rs` — the API error type,
  * `src/utils.rs` — the untagged success/error envelope,
  * `src/core.rs` — the `TextSynth` client handle.

External collaborators (serde_json, reqwest, http) are modelled at the level
the library uses them: JSON values and a parser for the integer / string /
boolean / array / object subset the wire format uses, serde-derive style
field-visitor deserialization, and HTTP status-code construction.  Rust
panics are modelled as `none` / `Option`-valued operations.
-/

namespace Spec2Proof

/-- Named characters used by the JSON grammar. -/
def quoteChar : Char := Char.ofNat 34

/-- The backslash character, the JSON escape introducer. -/
def backslashChar : Char := Char.ofNat 92

/-- The opening curly bracket of a JSON object. -/
def lbraceChar : Char := Char.ofNat 123

/-- The closing curly bracket of a JSON object. -/
def rbraceChar : Char := Char.ofNat 125

/-- JSON values, modelling the subset of serde_json values this client
produces and consumes: null, booleans, integer numbers, non-integer
numbers (for float-valued parameters), strings, arrays and objects. -/
inductive Json where
  | null : Json
  | bool (b : Bool) : Json
  | num (n : Int) : Json
  | fnum (q : ℚ) : Json
  | str (s : String) : Json
  | arr (elems : List Json) : Json
  | obj (fields : List (String × Json)) : Json

/-- Whitespace accepted between JSON tokens (serde_json: space, tab, newline,
carriage return). -/
def isJsonWs (c : Char) : Bool :=
  c = ' ' || c = '\t' || c = '\n' || c = '\r'

/-- Skip leading JSON whitespace. -/
def skipWs : List Char → List Char
  | [] => []
  | c :: rest => if isJsonWs c then skipWs rest else c :: rest

/-- Decode a JSON string escape character. -/
def escapeChar (c : Char) : Option Char :=
  if c = quoteChar then some quoteChar
  else if c = backslashChar then some backslashChar
  else if c = '/' then some '/'
  else if c = 'n' then some '\n'
  else if c = 't' then some '\t'
  else if c = 'r' then some '\r'
  else none

/-- Parse the body of a JSON string after the opening quote, returning the
decoded characters and the remaining input after the closing quote. -/
def parseStringChars : Nat → List Char → Option (List Char × List Char)
  | 0, _ => none
  | Nat.succ _, [] => none
  | Nat.succ fuel, c :: rest =>
    if c = quoteChar then some ([], rest)
    else if c = backslashChar then
      match rest with
      | [] => none
      | e :: rest2 =>
        match escapeChar e with
        | none => none
        | some ec =>
          match parseStringChars fuel rest2 with
          | some (s, r) => some (ec :: s, r)
          | none => none
    else
      match parseStringChars fuel rest with
      | some (s, r) => some (c :: s, r)
      | none => none

/-- Take a maximal run of decimal digits from the front of the input. -/
def takeDigits : List Char → List Char × List Char
  | [] => ([], [])
  | c :: rest =>
    if c.isDigit then
      match takeDigits rest with
      | (ds, r) => (c :: ds, r)
    else ([], c :: rest)

/-- Numeric value of a run of decimal digits. -/
def digitsToNat (ds : List Char) : Nat :=
  ds.foldl (fun acc c => acc * 10 + (c.toNat - 48)) 0

mutual

/-- Fuel-indexed recursive-descent parser for a JSON value, covering the
subset of the grammar the textsynth wire format uses (integers, strings,
booleans, null, arrays, objects).  Returns the value and the rest of the
input. -/
def parseValue : Nat → List Char → Option (Json × List Char)
  | 0, _ => none
  | Nat.succ fuel, input =>
    match skipWs input with
    | [] => none
    | c :: rest =>
      if c = 'n' then
        match rest with
        | 'u' :: 'l' :: 'l' :: r => some (.null, r)
        | _ => none
      else if c = 't' then
        match rest with
        | 'r' :: 'u' :: 'e' :: r => some (.bool true, r)
        | _ => none
      else if c = 'f' then
        match rest with
        | 'a' :: 'l' :: 's' :: 'e' :: r => some (.bool false, r)
        | _ => none
      else if c = quoteChar then
        match parseStringChars fuel rest with
        | some (s, r) => some (.str (String.mk s), r)
        | none => none
      else if c = '-' then
        match takeDigits rest with
        | ([], _) => none
        | (ds, r) => some (.num (-(digitsToNat ds : Int)), r)
      else if c.isDigit then
        match takeDigits (c :: rest) with
        | ([], _) => none
        | (ds, r) => some (.num (digitsToNat ds), r)
      else if c = '[' then
        match skipWs rest with
        | [] => none
        | d :: r =>
          if d = ']' then some (.arr [], r)
          else
            match parseArrayItems fuel (d :: r) with
            | some (vs, r2) => some (.arr vs, r2)
            | none => none
      else if c = lbraceChar then
        match skipWs rest with
        | [] => none
        | d :: r =>
          if d = rbraceChar then some (.obj [], r)
          else
            match parseObjectItems fuel (d :: r) with
            | some (kvs, r2) => some (.obj kvs, r2)
            | none => none
      else none

/-- Parse the comma-separated items of a non-empty JSON array, consuming the
closing bracket. -/
def parseArrayItems : Nat → List Char → Option (List Json × List Char)
  | 0, _ => none
  | Nat.succ fuel, input =>
    match parseValue fuel input with
    | none => none
    | some (v, rest) =>
      match skipWs rest with
      | ',' :: r =>
        match parseArrayItems fuel r with
        | some (vs, r2) => some (v :: vs, r2)
        | none => none
      | ']' :: r => some ([v], r)
      | _ => none

/-- Parse the comma-separated key/value members of a non-empty JSON object,
consuming the closing bracket. -/
def parseObjectItems : Nat → List Char → Option (List (String × Json) × List Char)
  | 0, _ => none
  | Nat.succ fuel, input =>
    match skipWs input with
    | [] => none
    | c :: rest =>
      if c = quoteChar then
        match parseStringChars fuel rest with
        | none => none
        | some (k, r) =>
          match skipWs r with
          | ':' :: r2 =>
            match parseValue fuel r2 with
            | none => none
            | some (v, r3) =>
              match skipWs r3 with
              | ',' :: r4 =>
                match parseObjectItems fuel r4 with
                | some (kvs, r5) => some ((String.mk k, v) :: kvs, r5)
                | none => none
              | d :: r4 => if d = rbraceChar then some ([(String.mk k, v)], r4) else none
              | [] => none
          | _ => none
      else none

end

/-- Model of serde_json parsing of a complete byte slice into a JSON value:
one value followed by nothing but whitespace. -/
def jsonFromBytes (bytes : List Char) : Option Json :=
  match parseValue (2 * bytes.length + 2) bytes with
  | some (v, rest) => if skipWs rest = [] then some v else none
  | none => none

/-- First occurrence of a key in a JSON object's field list (the wire-level
notion of the value carried by that field). -/
def jsonLookup : List (String × Json) → String → Option Json
  | [], _ => none
  | (k, v) :: rest, key => if k = key then some v else jsonLookup rest key

/-- CustomEngineDefinition from `src/engine/definition.rs`: a caller-supplied
engine identifier and token ceiling. -/
structure CustomEngineDefinition where
  id : String
  max_tokens : Nat
deriving DecidableEq

/-- Default token ceiling from the `KnownEngineDefinition` trait
(`const MAX_TOKENS: usize = 1024`). -/
def KnownEngineDefinition.defaultMaxTokens : Nat := 1024

/-- GptJ6B identifier constant from `src/engine/definition.rs`. -/
def GptJ6B.ID : String := "gptj_6B"

/-- GptJ6B token ceiling: the one engine overriding the trait default. -/
def GptJ6B.MAX_TOKENS : Nat := 2048

/-- Boris6B identifier constant. -/
def Boris6B.ID : String := "boris_6B"

/-- Boris6B token ceiling: not overridden, so the trait default. -/
def Boris6B.MAX_TOKENS : Nat := KnownEngineDefinition.defaultMaxTokens

/-- FairseqGpt13B identifier constant. -/
def FairseqGpt13B.ID : String := "fairseq_gpt_13B"

/-- FairseqGpt13B token ceiling: not overridden, so the trait default. -/
def FairseqGpt13B.MAX_TOKENS : Nat := KnownEngineDefinition.defaultMaxTokens

/-- EngineDefinition from `src/engine/definition.rs`: the closed set of
well-known engines plus a custom variant. -/
inductive EngineDefinition where
  | gptJ6B : EngineDefinition
  | boris6B : EngineDefinition
  | fairseqGpt13B : EngineDefinition
  | custom (c : CustomEngineDefinition) : EngineDefinition
deriving DecidableEq

/-- EngineDefinition::to_custom_engine_definition. -/
def EngineDefinition.to_custom_engine_definition : EngineDefinition → CustomEngineDefinition
  | .gptJ6B => ⟨GptJ6B.ID, GptJ6B.MAX_TOKENS⟩
  | .boris6B => ⟨Boris6B.ID, Boris6B.MAX_TOKENS⟩
  | .fairseqGpt13B => ⟨FairseqGpt13B.ID, FairseqGpt13B.MAX_TOKENS⟩
  | .custom c => c

/-- EngineDefinition::id. -/
def EngineDefinition.id : EngineDefinition → String
  | .gptJ6B => GptJ6B.ID
  | .boris6B => Boris6B.ID
  | .fairseqGpt13B => FairseqGpt13B.ID
  | .custom c => c.id

/-- EngineDefinition::max_tokens: goes through the custom-definition view. -/
def EngineDefinition.max_tokens (e : EngineDefinition) : Nat :=
  e.to_custom_engine_definition.max_tokens

/-- MaxTokens from `src/engine/text_completion.rs`: a validated token count. -/
structure MaxTokens where
  val : Nat
deriving DecidableEq

/-- MaxTokens::new: succeeds iff `max_tokens <= engine_definition.max_tokens()`
(the source's bound is inclusive). -/
def MaxTokens.new (max_tokens : Nat) (engine_definition : EngineDefinition) :
    Option MaxTokens :=
  if max_tokens ≤ engine_definition.max_tokens then some ⟨max_tokens⟩ else none

/-- MaxTokens::inner. -/
def MaxTokens.inner (m : MaxTokens) : Nat := m.val

/-- Model of an IEEE 754 double as the library uses it: NaN, an infinity, or
a finite value represented by a rational.  Comparisons follow IEEE semantics:
every comparison involving NaN is false. -/
inductive F64 where
  | nan : F64
  | negInf : F64
  | finite (q : ℚ) : F64
  | posInf : F64
deriving DecidableEq

/-- IEEE less-or-equal on doubles. -/
def F64.le : F64 → F64 → Bool
  | .nan, _ => false
  | _, .nan => false
  | .negInf, _ => true
  | _, .posInf => true
  | .posInf, _ => false
  | _, .negInf => false
  | .finite a, .finite b => decide (a ≤ b)

/-- TopP from `src/engine/text_completion.rs`: a validated f64. -/
structure TopP where
  val : F64
deriving DecidableEq

/-- TopP::new: succeeds iff `(0.0..=1.0).contains(&top_p)`, which is
`0.0 <= top_p && top_p <= 1.0` under IEEE comparison. -/
def TopP.new (top_p : F64) : Option TopP :=
  if F64.le (.finite 0) top_p && F64.le top_p (.finite 1) then some ⟨top_p⟩
  else none

/-- TopK, an alias for `bounded_integer::BoundedU16<1, 1000>`. -/
structure TopK where
  val : Nat
deriving DecidableEq

/-- BoundedU16::new for the TopK alias: succeeds exactly on [1, 1000]. -/
def TopK.new (n : Nat) : Option TopK :=
  if 1 ≤ n ∧ n ≤ 1000 then some ⟨n⟩ else none

/-- Stop, an alias for `ArrayVec<String, 5>`: an ordered collection of at
most five stop strings. -/
structure Stop where
  strings : List String
deriving DecidableEq

/-- ArrayVec::try_from for the Stop alias: fails beyond the capacity of 5. -/
def Stop.tryFrom (xs : List String) : Option Stop :=
  if xs.length ≤ 5 then some ⟨xs⟩ else none

/-- Error from `src/error.rs`: a raw numeric status (stored as NonZeroU16 in
the source) and a message.  The lazily-initialised status-code cache is
derived data (serde-skipped) and is represented by the
`Error.status_code` operation below. -/
structure Error where
  status : Nat
  error : String
deriving DecidableEq

/-- StatusCode from the http crate: a validated HTTP status code. -/
structure StatusCode where
  code : Nat
deriving DecidableEq

/-- Models `http::StatusCode::from_u16`, which succeeds exactly for codes in
100..=999. -/
def StatusCode.from_u16 (n : Nat) : Option StatusCode :=
  if 100 ≤ n ∧ n ≤ 999 then some ⟨n⟩ else none

/-- Error::status_code: `StatusCode::from_u16(status).expect(..)`.  The
`none` case models the panic taken when the stored status is not a valid
HTTP status code. -/
def Error.status_code (e : Error) : Option StatusCode :=
  StatusCode.from_u16 e.status

/-- Error::message. -/
def Error.message (e : Error) : String := e.error

/-- TextCompletion from `src/engine/text_completion.rs`: one decoded
response record. -/
structure TextCompletion where
  text : String
  reached_end : Bool
  truncated_prompt : Option Bool
  total_tokens : Option Nat
deriving DecidableEq

/-- TextCompletion::truncated_prompt accessor:
`self.truncated_prompt.unwrap_or(false)`. -/
def TextCompletion.truncatedPrompt (t : TextCompletion) : Bool :=
  t.truncated_prompt.getD false

/-- TextCompletion::total_tokens accessor. -/
def TextCompletion.totalTokens (t : TextCompletion) : Option Nat :=
  t.total_tokens

/-- TextCompletion::reached_end accessor. -/
def TextCompletion.reachedEnd (t : TextCompletion) : Bool :=
  t.reached_end

/-- TextCompletion::text accessor. -/
def TextCompletion.getText (t : TextCompletion) : String :=
  t.text

/-- UntaggedResult from `src/utils.rs`: the serde(untagged) wire envelope. -/
inductive UntaggedResult (T E : Type) where
  | Ok (value : T) : UntaggedResult T E
  | Err (error : E) : UntaggedResult T E
deriving DecidableEq

/-- From Result for UntaggedResult (`src/utils.rs`). -/
def UntaggedResult.ofResult : Except E T → UntaggedResult T E
  | .ok value => .Ok value
  | .error e => .Err e

/-- From UntaggedResult for Result (`src/utils.rs`). -/
def UntaggedResult.toResult : UntaggedResult T E → Except E T
  | .Ok value => .ok value
  | .Err e => .error e

/-- Whether an envelope resolved to its error variant. -/
def UntaggedResult.isErr : UntaggedResult T E → Bool
  | .Ok _ => false
  | .Err _ => true

/-- Deserialize a Rust `bool` from JSON. -/
def deserBool : Json → Option Bool
  | .bool b => some b
  | _ => none

/-- Deserialize a Rust `String` from JSON. -/
def deserString : Json → Option String
  | .str s => some s
  | _ => none

/-- Deserialize a Rust `usize` from JSON: a non-negative integer. -/
def deserUsize : Json → Option Nat
  | .num n => if 0 ≤ n then some n.toNat else none
  | _ => none

/-- Deserialize a Rust `NonZeroU16` from JSON: an integer in [1, 65535]. -/
def deserNonZeroU16 : Json → Option Nat
  | .num n => if 1 ≤ n ∧ n ≤ 65535 then some n.toNat else none
  | _ => none

/-- Deserialize a Rust `Option<T>` field value: JSON null becomes `none`,
anything else must deserialize as `T`. -/
def deserOptField (f : Json → Option α) : Json → Option (Option α)
  | .null => some none
  | j => (f j).map some

/-- Field slots of the serde-derived TextCompletion visitor: each slot is
`none` until its field has been seen. -/
structure TextCompletionSlots where
  text : Option String
  reached_end : Option Bool
  truncated_prompt : Option (Option Bool)
  total_tokens : Option (Option Nat)
deriving DecidableEq

/-- One step of the serde-derived TextCompletion visitor: dispatch on the
field name, error on a duplicate or ill-typed field, ignore unknown
fields. -/
def applyTextCompletionField (slots : TextCompletionSlots) (k : String) (v : Json) :
    Option TextCompletionSlots :=
  if k = "text" then
    match slots.text, deserString v with
    | none, some s => some { slots with text := some s }
    | _, _ => none
  else if k = "reached_end" then
    match slots.reached_end, deserBool v with
    | none, some b => some { slots with reached_end := some b }
    | _, _ => none
  else if k = "truncated_prompt" then
    match slots.truncated_prompt, deserOptField deserBool v with
    | none, some ob => some { slots with truncated_prompt := some ob }
    | _, _ => none
  else if k = "total_tokens" then
    match slots.total_tokens, deserOptField deserUsize v with
    | none, some ot => some { slots with total_tokens := some ot }
    | _, _ => none
  else some slots

/-- Fold the TextCompletion visitor over an object's fields in input order. -/
def deserTextCompletionFields :
    List (String × Json) → TextCompletionSlots → Option TextCompletionSlots
  | [], slots => some slots
  | (k, v) :: rest, slots =>
    match applyTextCompletionField slots k v with
    | some slots2 => deserTextCompletionFields rest slots2
    | none => none

/-- Deserialize a TextCompletion from a JSON value, per the serde derive:
`text` and `reached_end` are required; the two `Option` fields default to
`None` when absent. -/
def deserTextCompletion : Json → Option TextCompletion
  | .obj fields =>
    match deserTextCompletionFields fields ⟨none, none, none, none⟩ with
    | some slots =>
      match slots.text, slots.reached_end with
      | some t, some re =>
        some ⟨t, re, slots.truncated_prompt.getD none, slots.total_tokens.getD none⟩
      | _, _ => none
    | none => none
  | _ => none

/-- Field slots of the serde-derived Error visitor (the `status_code` cache
field is serde-skipped and never read from input). -/
structure ErrorSlots where
  status : Option Nat
  error : Option String
deriving DecidableEq

/-- One step of the serde-derived Error visitor. -/
def applyErrorField (slots : ErrorSlots) (k : String) (v : Json) : Option ErrorSlots :=
  if k = "status" then
    match slots.status, deserNonZeroU16 v with
    | none, some n => some { slots with status := some n }
    | _, _ => none
  else if k = "error" then
    match slots.error, deserString v with
    | none, some s => some { slots with error := some s }
    | _, _ => none
  else some slots

/-- Fold the Error visitor over an object's fields in input order. -/
def deserErrorFields : List (String × Json) → ErrorSlots → Option ErrorSlots
  | [], slots => some slots
  | (k, v) :: rest, slots =>
    match applyErrorField slots k v with
    | some slots2 => deserErrorFields rest slots2
    | none => none

/-- Deserialize an Error from a JSON value: both `status` and `error` are
required. -/
def deserError : Json → Option Error
  | .obj fields =>
    match deserErrorFields fields ⟨none, none⟩ with
    | some slots =>
      match slots.status, slots.error with
      | some n, some s => some ⟨n, s⟩
      | _, _ => none
    | none => none
  | _ => none

/-- Deserialization of the serde(untagged) UntaggedResult envelope
specialised to TextCompletion: try the variants in declaration order, the
`Ok` (success) variant first, then `Err`. -/
def deserUntagged (j : Json) : Option (UntaggedResult TextCompletion Error) :=
  match deserTextCompletion j with
  | some t => some (.Ok t)
  | none =>
    match deserError j with
    | some e => some (.Err e)
    | none => none

/-- Transport-level failure (reqwest::Error), kept abstract. -/
structure TransportError where
  code : Nat
deriving DecidableEq

/-- JSON-level failure (serde_json::Error), kept abstract. -/
inductive JsonError where
  | parseError : JsonError
deriving DecidableEq

/-- Model of `serde_json::from_slice::<UntaggedResult<TextCompletion, Error>>`:
a syntax failure or a data-shape mismatch both surface as a
serde_json error. -/
def from_slice_untagged (bytes : List Char) :
    Except JsonError (UntaggedResult TextCompletion Error) :=
  match jsonFromBytes bytes with
  | none => .error .parseError
  | some j =>
    match deserUntagged j with
    | some u => .ok u
    | none => .error .parseError

/-- Rust usize subtraction as in `bytes.len() - 2`: `none` models the panic
taken on underflow. -/
def usizeSub (a b : Nat) : Option Nat :=
  if b ≤ a then some (a - b) else none

/-- Bytes::slice(..stop): `none` models the panic taken when the requested
end is out of range. -/
def bytesSliceTo (bytes : List Char) (stop : Nat) : Option (List Char) :=
  if stop ≤ bytes.length then some (bytes.take stop) else none

/-- The per-chunk transformation of `TextCompletionBuilder::stream`
(`src/engine/text_completion.rs` lines 257-264): map over the transport
result, slice away the final two delimiter bytes, parse the remainder as
the untagged envelope, and convert the envelope into a Result.  The outer
`none` models a panic of the chunk transformation. -/
def streamStep (item : Except TransportError (List Char)) :
    Option (Except TransportError (Except JsonError (Except Error TextCompletion))) :=
  match item with
  | .error e => some (.error e)
  | .ok bytes =>
    ((usizeSub bytes.length 2).bind (bytesSliceTo bytes)).map
      (fun sliced => .ok ((from_slice_untagged sliced).map UntaggedResult.toResult))

/-- Decoding an entire delivered chunk sequence in delivery order; a panic
(`none`) of any per-chunk step is a panic of the whole decode. -/
def streamDecode (chunks : List (Except TransportError (List Char))) :
    Option (List (Except TransportError (Except JsonError (Except Error TextCompletion)))) :=
  chunks.mapM streamStep

/-- The reqwest HTTP client handle, kept abstract. -/
structure ReqwestClient where
  id : Nat
deriving DecidableEq

/-- TextSynth from `src/core.rs`: the shared client handle. -/
structure TextSynth where
  client : ReqwestClient
  api_key : String
deriving DecidableEq

/-- TextSynth::new_with_client. -/
def TextSynth.new_with_client (client : ReqwestClient) (api_key : String) : TextSynth :=
  ⟨client, api_key⟩

/-- TextSynth::try_new: propagates the outcome of building the default
reqwest client. -/
def TextSynth.try_new (builderResult : Except TransportError ReqwestClient)
    (api_key : String) : Except TransportError TextSynth :=
  builderResult.map (fun c => TextSynth.new_with_client c api_key)

/-- TextSynth::new: `try_new(..).expect(..)`.  The `none` case models the
panic taken when building the default client fails. -/
def TextSynth.new (builderResult : Except TransportError ReqwestClient)
    (api_key : String) : Option TextSynth :=
  match TextSynth.try_new builderResult api_key with
  | .ok ts => some ts
  | .error _ => none

/-- Engine from `src/engine/mod.rs`: the shared client plus an engine
definition. -/
structure Engine where
  text_synth : TextSynth
  definition : EngineDefinition
deriving DecidableEq

/-- TextCompletionRequest from `src/engine/text_completion.rs`: the outgoing
payload; every field but `prompt` is optional. -/
structure TextCompletionRequest where
  prompt : String
  max_tokens : Option MaxTokens
  temperature : Option F64
  top_k : Option TopK
  top_p : Option TopP
  stream : Option Bool
  stop : Option Stop
deriving DecidableEq

/-- serde_json encoding of an f64 value: non-finite values serialize as
JSON null, finite values as a number. -/
def F64.toJson : F64 → Json
  | .finite q => .fnum q
  | _ => .null

/-- Serialization of TextCompletionRequest per its serde derive: fields in
declaration order, each optional field guarded by
`skip_serializing_if = "Option::is_none"` and hence omitted when unset. -/
def serializeRequest (r : TextCompletionRequest) : List (String × Json) :=
  [("prompt", Json.str r.prompt)]
    ++ (match r.max_tokens with
        | some m => [("max_tokens", Json.num m.val)]
        | none => [])
    ++ (match r.temperature with
        | some t => [("temperature", t.toJson)]
        | none => [])
    ++ (match r.top_k with
        | some k => [("top_k", Json.num k.val)]
        | none => [])
    ++ (match r.top_p with
        | some p => [("top_p", p.val.toJson)]
        | none => [])
    ++ (match r.stream with
        | some s => [("stream", Json.bool s)]
        | none => [])
    ++ (match r.stop with
        | some st => [("stop", Json.arr (st.strings.map Json.str))]
        | none => [])

/-- TextCompletionBuilder from `src/engine/text_completion.rs`. -/
structure TextCompletionBuilder where
  engine : Engine
  prompt : String
  max_tokens : Option MaxTokens
  temperature : Option F64
  top_k : Option TopK
  top_p : Option TopP
deriving DecidableEq

/-- TextCompletionBuilder::new: all optional parameters start unset. -/
def TextCompletionBuilder.new (engine : Engine) (prompt : String) :
    TextCompletionBuilder :=
  ⟨engine, prompt, none, none, none, none⟩

/-- TextCompletionBuilder::max_tokens setter. -/
def TextCompletionBuilder.setMaxTokens (b : TextCompletionBuilder) (m : MaxTokens) :
    TextCompletionBuilder :=
  { b with max_tokens := some m }

/-- TextCompletionBuilder::temperature setter. -/
def TextCompletionBuilder.setTemperature (b : TextCompletionBuilder) (t : F64) :
    TextCompletionBuilder :=
  { b with temperature := some t }

/-- TextCompletionBuilder::top_k setter. -/
def TextCompletionBuilder.setTopK (b : TextCompletionBuilder) (k : TopK) :
    TextCompletionBuilder :=
  { b with top_k := some k }

/-- TextCompletionBuilder::top_p setter. -/
def TextCompletionBuilder.setTopP (b : TextCompletionBuilder) (p : TopP) :
    TextCompletionBuilder :=
  { b with top_p := some p }

/-- TextCompletionBuilder::url: interpolates the engine identifier into the
fixed completions path template. -/
def TextCompletionBuilder.url (b : TextCompletionBuilder) : String :=
  "https://api.textsynth.com/v1/engines/" ++ b.engine.definition.id ++ "/completions"

/-- The request payload built by `TextCompletionBuilder::now_impl`: the
builder's accumulated parameters, `stream` unset, `stop` as given. -/
def TextCompletionBuilder.now_request (b : TextCompletionBuilder)
    (stop : Option Stop) : TextCompletionRequest :=
  ⟨b.prompt, b.max_tokens, b.temperature, b.top_k, b.top_p, none, stop⟩

/-- The request payload built by `TextCompletionBuilder::stream`: the
builder's accumulated parameters, `stream = Some(true)`, `stop` unset. -/
def TextCompletionBuilder.stream_request (b : TextCompletionBuilder) :
    TextCompletionRequest :=
  ⟨b.prompt, b.max_tokens, b.temperature, b.top_k, b.top_p, some true, none⟩

/-- The closed set of well-known engine variants. -/
def wellKnownEngines : List EngineDefinition :=
  [.gptJ6B, .boris6B, .fairseqGpt13B]

/-- First chunk of the streaming scenario: one JSON record followed by the
two-byte newline delimiter. -/
def chunk0 : List Char :=
  ("\x7b\"text\":\"a\",\"reached_end\":false\x7d\n\n").data

/-- Second chunk of the streaming scenario: the final record carrying
`total_tokens`, followed by the two-byte newline delimiter. -/
def chunk1 : List Char :=
  ("\x7b\"text\":\"b\",\"reached_end\":true,\"total_tokens\":12\x7d\n\n").data

/-- A JSON object carrying both the success shape's required fields and the
error shape's `status` and `error` fields. -/
def overlapFields : List (String × Json) :=
  [("text", Json.str "a"), ("reached_end", Json.bool true),
   ("status", Json.num 400), ("error", Json.str "boom")]

/-- A concrete client handle for examples. -/
def sampleTextSynth : TextSynth := ⟨⟨0⟩, "key"⟩

/-- A visitor step on a key other than `truncated_prompt` leaves the
truncated-prompt slot unchanged. -/
theorem applyTCField_tp_ne (slots out : TextCompletionSlots) (k : String) (v : Json)
    (hk : ¬ k = "truncated_prompt")
    (h : applyTextCompletionField slots k v = some out) :
    out.truncated_prompt = slots.truncated_prompt := by
  unfold applyTextCompletionField at h
  split_ifs at h with h1 h2 h3
  · split at h
    · injection h with h5
      rw [← h5]
    · cases h
  · split at h
    · injection h with h5
      rw [← h5]
    · cases h
  · split at h
    · injection h with h5
      rw [← h5]
    · cases h
  · injection h with h5
    rw [← h5]

/-- A visitor step never overwrites an already-filled truncated-prompt slot
(a second occurrence of the field is a duplicate error). -/
theorem applyTCField_tp_set (slots out : TextCompletionSlots) (k : String) (v : Json)
    (x : Option Bool) (hx : slots.truncated_prompt = some x)
    (h : applyTextCompletionField slots k v = some out) :
    out.truncated_prompt = some x := by
  by_cases hk : k = "truncated_prompt"
  · subst hk
    unfold applyTextCompletionField at h
    rw [if_neg (by decide), if_neg (by decide), if_pos rfl] at h
    split at h
    · next heq _ =>
      rw [hx] at heq
      cases heq
    · cases h
  · rw [applyTCField_tp_ne slots out k v hk h]
    exact hx

/-- Once the truncated-prompt slot is filled, a successful fold keeps its
value. -/
theorem foldTC_tp_set :
    ∀ (fields : List (String × Json)) (slots out : TextCompletionSlots)
      (x : Option Bool), slots.truncated_prompt = some x →
      deserTextCompletionFields fields slots = some out →
      out.truncated_prompt = some x := by
  intro fields
  induction fields with
  | nil =>
    intro slots out x hx h
    injection h with h2
    rw [← h2]
    exact hx
  | cons kv rest ih =>
    intro slots out x hx h
    obtain ⟨k, v⟩ := kv
    unfold deserTextCompletionFields at h
    cases happ : applyTextCompletionField slots k v with
    | none => rw [happ] at h; cases h
    | some slots2 =>
      rw [happ] at h
      exact ih slots2 out x (applyTCField_tp_set slots slots2 k v x hx happ) h

/-- When the wire object has no `truncated_prompt` field, a successful fold
leaves the truncated-prompt slot as it started. -/
theorem foldTC_tp_absent :
    ∀ (fields : List (String × Json)) (slots out : TextCompletionSlots),
      jsonLookup fields "truncated_prompt" = none →
      deserTextCompletionFields fields slots = some out →
      out.truncated_prompt = slots.truncated_prompt := by
  intro fields
  induction fields with
  | nil =>
    intro slots out _ h
    injection h with h2
    rw [← h2]
  | cons kv rest ih =>
    intro slots out habs h
    obtain ⟨k, v⟩ := kv
    unfold jsonLookup at habs
    by_cases hk : k = "truncated_prompt"
    · rw [if_pos hk] at habs
      cases habs
    · rw [if_neg hk] at habs
      unfold deserTextCompletionFields at h
      cases happ : applyTextCompletionField slots k v with
      | none => rw [happ] at h; cases h
      | some slots2 =>
        rw [happ] at h
        rw [ih slots2 out habs h]
        exact applyTCField_tp_ne slots slots2 k v hk happ

/-- When the wire object's first `truncated_prompt` field carries a boolean,
a successful fold fills the truncated-prompt slot with exactly that
boolean. -/
theorem foldTC_tp_present :
    ∀ (fields : List (String × Json)) (slots out : TextCompletionSlots) (b : Bool),
      jsonLookup fields "truncated_prompt" = some (.bool b) →
      slots.truncated_prompt = none →
      deserTextCompletionFields fields slots = some out →
      out.truncated_prompt = some (some b) := by
  intro fields
  induction fields with
  | nil =>
    intro slots out b hl
    cases hl
  | cons kv rest ih =>
    intro slots out b hl hnone h
    obtain ⟨k, v⟩ := kv
    unfold jsonLookup at hl
    unfold deserTextCompletionFields at h
    by_cases hk : k = "truncated_prompt"
    · rw [if_pos hk] at hl
      injection hl with hl2
      subst hl2
      subst hk
      have happ : applyTextCompletionField slots "truncated_prompt" (Json.bool b)
          = some { slots with truncated_prompt := some (some b) } := by
        unfold applyTextCompletionField
        rw [if_neg (by decide), if_neg (by decide), if_pos rfl, hnone]
        rfl
      rw [happ] at h
      exact foldTC_tp_set rest _ out (some b) rfl h
    · rw [if_neg hk] at hl
      cases happ : applyTextCompletionField slots k v with
      | none => rw [happ] at h; cases h
      | some slots2 =>
        rw [happ] at h
        refine ih slots2 out b hl ?_ h
        rw [applyTCField_tp_ne slots slots2 k v hk happ]
        exact hnone

/-- A successful NonZeroU16 deserialization comes from an integer in
[1, 65535]. -/
theorem deserNonZeroU16_inv :
    ∀ (v : Json) (n : Nat), deserNonZeroU16 v = some n →
      ∃ m : Int, v = .num m ∧ 1 ≤ m ∧ m ≤ 65535 ∧ m.toNat = n := by
  intro v n h
  cases v with
  | num m =>
    simp only [deserNonZeroU16] at h
    split at h
    · next hcond =>
      injection h with h2
      exact ⟨m, rfl, hcond.1, hcond.2, h2⟩
    · cases h
  | null => cases h
  | bool b => cases h
  | fnum q => cases h
  | str s => cases h
  | arr xs => cases h
  | obj fs => cases h

/-- A successful String deserialization comes from a JSON string. -/
theorem deserString_inv :
    ∀ (v : Json) (s : String), deserString v = some s → v = .str s := by
  intro v s h
  cases v with
  | str t =>
    injection h with h2
    rw [h2]
  | null => cases h
  | bool b => cases h
  | num n => cases h
  | fnum q => cases h
  | arr xs => cases h
  | obj fs => cases h

/-- An Error-visitor step on a key other than `status` leaves the status
slot unchanged. -/
theorem applyErrField_status_ne (slots out : ErrorSlots) (k : String) (v : Json)
    (hk : ¬ k = "status") (h : applyErrorField slots k v = some out) :
    out.status = slots.status := by
  unfold applyErrorField at h
  split_ifs at h with h1
  · split at h
    · injection h with h5
      rw [← h5]
    · cases h
  · injection h with h5
    rw [← h5]

/-- An Error-visitor step on a key other than `error` leaves the message
slot unchanged. -/
theorem applyErrField_error_ne (slots out : ErrorSlots) (k : String) (v : Json)
    (hk : ¬ k = "error") (h : applyErrorField slots k v = some out) :
    out.error = slots.error := by
  unfold applyErrorField at h
  split_ifs at h with h1
  · split at h
    · injection h with h5
      rw [← h5]
    · cases h
  · injection h with h5
    rw [← h5]

/-- An Error-visitor step never overwrites a filled status slot. -/
theorem applyErrField_status_set (slots out : ErrorSlots) (k : String) (v : Json)
    (n : Nat) (hx : slots.status = some n) (h : applyErrorField slots k v = some out) :
    out.status = some n := by
  by_cases hk : k = "status"
  · subst hk
    unfold applyErrorField at h
    rw [if_pos rfl] at h
    split at h
    · next heq _ =>
      rw [hx] at heq
      cases heq
    · cases h
  · rw [applyErrField_status_ne slots out k v hk h]
    exact hx

/-- An Error-visitor step never overwrites a filled message slot. -/
theorem applyErrField_error_set (slots out : ErrorSlots) (k : String) (v : Json)
    (s : String) (hx : slots.error = some s) (h : applyErrorField slots k v = some out) :
    out.error = some s := by
  by_cases hk : k = "error"
  · subst hk
    unfold applyErrorField at h
    rw [if_neg (by decide), if_pos rfl] at h
    split at h
    · next heq _ =>
      rw [hx] at heq
      cases heq
    · cases h
  · rw [applyErrField_error_ne slots out k v hk h]
    exact hx

/-- Once the status slot is filled, a successful Error fold keeps its
value. -/
theorem foldErr_status_set :
    ∀ (fields : List (String × Json)) (slots out : ErrorSlots) (n : Nat),
      slots.status = some n → deserErrorFields fields slots = some out →
      out.status = some n := by
  intro fields
  induction fields with
  | nil =>
    intro slots out n hx h
    injection h with h2
    rw [← h2]
    exact hx
  | cons kv rest ih =>
    intro slots out n hx h
    obtain ⟨k, v⟩ := kv
    unfold deserErrorFields at h
    cases happ : applyErrorField slots k v with
    | none => rw [happ] at h; cases h
    | some slots2 =>
      rw [happ] at h
      exact ih slots2 out n (applyErrField_status_set slots slots2 k v n hx happ) h

/-- Once the message slot is filled, a successful Error fold keeps its
value. -/
theorem foldErr_error_set :
    ∀ (fields : List (String × Json)) (slots out : ErrorSlots) (s : String),
      slots.error = some s → deserErrorFields fields slots = some out →
      out.error = some s := by
  intro fields
  induction fields with
  | nil =>
    intro slots out s hx h
    injection h with h2
    rw [← h2]
    exact hx
  | cons kv rest ih =>
    intro slots out s hx h
    obtain ⟨k, v⟩ := kv
    unfold deserErrorFields at h
    cases happ : applyErrorField slots k v with
    | none => rw [happ] at h; cases h
    | some slots2 =>
      rw [happ] at h
      exact ih slots2 out s (applyErrField_error_set slots slots2 k v s hx happ) h

/-- A filled status slot of a successful Error fold that started empty comes
from the object's first `status` field, an in-range integer. -/
theorem foldErr_status_extract :
    ∀ (fields : List (String × Json)) (slots out : ErrorSlots) (n : Nat),
      slots.status = none → deserErrorFields fields slots = some out →
      out.status = some n →
      ∃ m : Int, jsonLookup fields "status" = some (.num m) ∧
        1 ≤ m ∧ m ≤ 65535 ∧ m.toNat = n := by
  intro fields
  induction fields with
  | nil =>
    intro slots out n hempty h hn
    injection h with h2
    rw [← h2] at hn
    rw [hempty] at hn
    cases hn
  | cons kv rest ih =>
    intro slots out n hempty h hn
    obtain ⟨k, v⟩ := kv
    unfold deserErrorFields at h
    unfold jsonLookup
    by_cases hk : k = "status"
    · subst hk
      rw [if_pos rfl]
      unfold applyErrorField at h
      rw [if_pos rfl, hempty] at h
      cases hnz : deserNonZeroU16 v with
      | none =>
        rw [hnz] at h
        cases h
      | some n0 =>
        rw [hnz] at h
        have hout := foldErr_status_set rest _ out n0 rfl h
        rw [hout] at hn
        injection hn with hn2
        obtain ⟨m, hm, hm1, hm2, hm3⟩ := deserNonZeroU16_inv v n0 hnz
        exact ⟨m, by rw [hm], hm1, hm2, by rw [hm3, hn2]⟩
    · rw [if_neg hk]
      cases happ : applyErrorField slots k v with
      | none => rw [happ] at h; cases h
      | some slots2 =>
        rw [happ] at h
        refine ih slots2 out n ?_ h hn
        rw [applyErrField_status_ne slots slots2 k v hk happ]
        exact hempty

/-- A filled message slot of a successful Error fold that started empty
comes from the object's first `error` field, a JSON string. -/
theorem foldErr_error_extract :
    ∀ (fields : List (String × Json)) (slots out : ErrorSlots) (s : String),
      slots.error = none → deserErrorFields fields slots = some out →
      out.error = some s →
      jsonLookup fields "error" = some (.str s) := by
  intro fields
  induction fields with
  | nil =>
    intro slots out s hempty h hs
    injection h with h2
    rw [← h2] at hs
    rw [hempty] at hs
    cases hs
  | cons kv rest ih =>
    intro slots out s hempty h hs
    obtain ⟨k, v⟩ := kv
    unfold deserErrorFields at h
    unfold jsonLookup
    by_cases hk : k = "error"
    · subst hk
      rw [if_pos rfl]
      unfold applyErrorField at h
      rw [if_neg (by decide), if_pos rfl, hempty] at h
      cases hds : deserString v with
      | none =>
        rw [hds] at h
        cases h
      | some s0 =>
        rw [hds] at h
        have hout := foldErr_error_set rest _ out s0 rfl h
        rw [hout] at hs
        injection hs with hs2
        rw [deserString_inv v s0 hds, hs2]
    · rw [if_neg hk]
      cases happ : applyErrorField slots k v with
      | none => rw [happ] at h; cases h
      | some slots2 =>
        rw [happ] at h
        refine ih slots2 out s ?_ h hs
        rw [applyErrField_error_ne slots slots2 k v hk happ]
        exact hempty

/-- C1 counterexample: with a ceiling of 1024, the value 1024 is accepted by
`MaxTokens::new` although it is not strictly less than the ceiling, so the
claimed strict bound is false on the code (the source compares with `<=`,
and its own test pins `MaxTokens::new(1024, ..)` as `Some` for ceiling
1024). -/
theorem C1_counterexample :
    (MaxTokens.new 1024 (EngineDefinition.custom ⟨"custom", 1024⟩)).isSome = true ∧
    ¬ (1024 < (EngineDefinition.custom ⟨"custom", 1024⟩).max_tokens) := by
  decide

/-- C1 (amended): `MaxTokens::new(v, e)` returns `Some` iff `v` is
less-or-equal-to the engine's token ceiling `c`; in particular `v = c - 1`
and `v = c` are accepted and `v = c + 1` is rejected. -/
theorem C1_max_tokens_inclusive_bound :
    (∀ (v : Nat) (e : EngineDefinition),
      (MaxTokens.new v e).isSome = true ↔ v ≤ e.max_tokens) ∧
    (∀ e : EngineDefinition,
      (MaxTokens.new (e.max_tokens - 1) e).isSome = true ∧
      (MaxTokens.new e.max_tokens e).isSome = true ∧
      MaxTokens.new (e.max_tokens + 1) e = none) := by
  constructor
  · intro v e
    unfold MaxTokens.new
    split <;> simp_all
  · intro e
    refine ⟨?_, ?_, ?_⟩ <;> unfold MaxTokens.new
    · rw [if_pos (Nat.sub_le _ _)]; rfl
    · rw [if_pos (Nat.le_refl _)]; rfl
    · rw [if_neg (by omega)]

/-- C2: decoding the two-chunk stream strips the trailing two bytes of each
chunk, parses the remainder as the untagged envelope, and yields, in
delivery order, a sequence of length 2 whose element 0 has no
`total_tokens` and whose element 1 has `total_tokens = Some 12` and
`reached_end = true`. -/
theorem C2_streaming_scenario :
    from_slice_untagged (chunk0.take (chunk0.length - 2))
      = .ok (.Ok ⟨"a", false, none, none⟩) ∧
    from_slice_untagged (chunk1.take (chunk1.length - 2))
      = .ok (.Ok ⟨"b", true, none, some 12⟩) ∧
    streamDecode [.ok chunk0, .ok chunk1]
      = some [.ok (.ok (.ok ⟨"a", false, none, none⟩)),
              .ok (.ok (.ok ⟨"b", true, none, some 12⟩))] ∧
    ([.ok (.ok (.ok ⟨"a", false, none, none⟩)),
      .ok (.ok (.ok ⟨"b", true, none, some 12⟩))] :
      List (Except TransportError (Except JsonError (Except Error TextCompletion)))).length
      = 2 ∧
    (⟨"a", false, none, none⟩ : TextCompletion).totalTokens = none ∧
    (⟨"b", true, none, some 12⟩ : TextCompletion).totalTokens = some 12 ∧
    (⟨"b", true, none, some 12⟩ : TextCompletion).reachedEnd = true :=
  ⟨rfl, rfl, rfl, rfl, rfl, rfl, rfl⟩

/-- C3 counterexample: the claim says exactly two well-known engines have
ceiling 2048, but exactly one of the three well-known variants does
(GptJ6B); Boris6B and FairseqGpt13B keep the 1024 default. -/
theorem C3_counterexample :
    wellKnownEngines.countP (fun e => e.max_tokens == 2048) = 1 ∧ (1 : Nat) ≠ 2 := by
  decide

/-- C3 (amended): the token-ceiling lookup returns the 1024 default unless
overridden; exactly one well-known engine, GptJ6B, overrides it to 2048,
while Boris6B and FairseqGpt13B return 1024; the custom variant returns its
caller-supplied ceiling. -/
theorem C3_engine_ceilings :
    EngineDefinition.gptJ6B.max_tokens = 2048 ∧
    EngineDefinition.boris6B.max_tokens = KnownEngineDefinition.defaultMaxTokens ∧
    EngineDefinition.fairseqGpt13B.max_tokens = KnownEngineDefinition.defaultMaxTokens ∧
    KnownEngineDefinition.defaultMaxTokens = 1024 ∧
    wellKnownEngines.countP (fun e => e.max_tokens == 2048) = 1 ∧
    (∀ c : CustomEngineDefinition, (EngineDefinition.custom c).max_tokens = c.max_tokens) :=
  ⟨rfl, rfl, rfl, rfl, by decide, fun _ => rfl⟩

/-- C4 counterexample: three public operations abort instead of returning a
value: the streaming decode step panics on a delivered one-byte chunk
(`bytes.len() - 2` underflows), `Error::status_code` panics for the stored
status 99 (a valid `NonZeroU16` rejected by `StatusCode::from_u16`), and
`TextSynth::new` panics when building the default client fails. -/
theorem C4_counterexample :
    streamStep (.ok ['\n']) = none ∧
    Error.status_code ⟨99, "boom"⟩ = none ∧
    TextSynth.new (.error ⟨0⟩) "key" = none :=
  ⟨rfl, rfl, rfl⟩

/-- C4 (amended): the public operations are total except exactly on their
panic paths: `Error::status_code` returns a status code exactly when the
stored status lies in 100..=999 and panics for every status outside that
range; `TextSynth::new` returns a client whenever the default client builds
and panics for every build failure (while `try_new` always returns a
value); the streaming decode step returns a layered outcome for every
transport-level failure and for every delivered chunk of at least two
bytes, and panics on every shorter delivered chunk. -/
theorem C4_totality_with_panic_paths :
    (∀ e : Error, (e.status_code).isSome = true ↔ (100 ≤ e.status ∧ e.status ≤ 999)) ∧
    (∀ e : Error, e.status < 100 ∨ 999 < e.status → e.status_code = none) ∧
    (∀ (c : ReqwestClient) (k : String),
      TextSynth.new (.ok c) k = some (TextSynth.new_with_client c k)) ∧
    (∀ (err : TransportError) (k : String), TextSynth.new (.error err) k = none) ∧
    (∀ (res : Except TransportError ReqwestClient) (k : String),
      TextSynth.try_new res k = res.map (fun c => TextSynth.new_with_client c k)) ∧
    (∀ e : TransportError, streamStep (.error e) = some (.error e)) ∧
    (∀ bytes : List Char, 2 ≤ bytes.length → (streamStep (.ok bytes)).isSome = true) ∧
    (∀ bytes : List Char, bytes.length < 2 → streamStep (.ok bytes) = none) := by
  refine ⟨?_, ?_, ?_, ?_, ?_, ?_, ?_, ?_⟩
  · intro e
    unfold Error.status_code StatusCode.from_u16
    split <;> simp_all
  · intro e h
    unfold Error.status_code StatusCode.from_u16
    rw [if_neg (by omega)]
  · intro c k
    rfl
  · intro err k
    rfl
  · intro res k
    rfl
  · intro e
    rfl
  · intro bytes h
    simp only [streamStep, usizeSub, bytesSliceTo]
    rw [if_pos h, Option.some_bind, if_pos (Nat.sub_le _ _)]
    rfl
  · intro bytes h
    simp only [streamStep, usizeSub]
    rw [if_neg (by omega)]
    rfl

/-- C4 witness: the amended totality and panic statements hold at concrete
inputs on both sides of each boundary. -/
theorem C4_witness :
    (Error.status_code ⟨404, "not found"⟩).isSome = true ∧
    Error.status_code ⟨99, "low"⟩ = none ∧
    Error.status_code ⟨1000, "high"⟩ = none ∧
    TextSynth.new (.ok ⟨0⟩) "key" = some (TextSynth.new_with_client ⟨0⟩ "key") ∧
    TextSynth.new (.error ⟨3⟩) "key" = none ∧
    TextSynth.try_new (.error ⟨7⟩) "key"
      = (Except.error ⟨7⟩ : Except TransportError ReqwestClient).map
          (fun c => TextSynth.new_with_client c "key") ∧
    streamStep (.error ⟨7⟩) = some (.error ⟨7⟩) ∧
    (streamStep (.ok chunk0)).isSome = true ∧
    streamStep (.ok ['\n']) = none :=
  ⟨(C4_totality_with_panic_paths.1 ⟨404, "not found"⟩).mpr ⟨by decide, by decide⟩,
   C4_totality_with_panic_paths.2.1 ⟨99, "low"⟩ (Or.inl (by decide)),
   C4_totality_with_panic_paths.2.1 ⟨1000, "high"⟩ (Or.inr (by decide)),
   C4_totality_with_panic_paths.2.2.1 ⟨0⟩ "key",
   C4_totality_with_panic_paths.2.2.2.1 ⟨3⟩ "key",
   C4_totality_with_panic_paths.2.2.2.2.1 (.error ⟨7⟩) "key",
   C4_totality_with_panic_paths.2.2.2.2.2.1 ⟨7⟩,
   C4_totality_with_panic_paths.2.2.2.2.2.2.1 chunk0 (by decide),
   C4_totality_with_panic_paths.2.2.2.2.2.2.2 ['\n'] (by decide)⟩

/-- C6: the serialized payload's keys are exactly `prompt` plus the keys of
the optional fields that are set, in declaration order; with nothing set the
payload holds only `prompt`; an unset field contributes no key at all (so it
is never emitted as null), and each optional key is present iff its field is
set. -/
theorem C6_sparse_serialization :
    (∀ r : TextCompletionRequest,
      (serializeRequest r).map Prod.fst
        = ["prompt"]
          ++ (if r.max_tokens.isSome then ["max_tokens"] else [])
          ++ (if r.temperature.isSome then ["temperature"] else [])
          ++ (if r.top_k.isSome then ["top_k"] else [])
          ++ (if r.top_p.isSome then ["top_p"] else [])
          ++ (if r.stream.isSome then ["stream"] else [])
          ++ (if r.stop.isSome then ["stop"] else [])) ∧
    (∀ p : String,
      (serializeRequest ⟨p, none, none, none, none, none, none⟩).map Prod.fst
        = ["prompt"]) ∧
    (∀ r : TextCompletionRequest,
      ("max_tokens" ∈ (serializeRequest r).map Prod.fst ↔ r.max_tokens.isSome = true) ∧
      ("temperature" ∈ (serializeRequest r).map Prod.fst ↔ r.temperature.isSome = true) ∧
      ("top_k" ∈ (serializeRequest r).map Prod.fst ↔ r.top_k.isSome = true) ∧
      ("top_p" ∈ (serializeRequest r).map Prod.fst ↔ r.top_p.isSome = true) ∧
      ("stream" ∈ (serializeRequest r).map Prod.fst ↔ r.stream.isSome = true) ∧
      ("stop" ∈ (serializeRequest r).map Prod.fst ↔ r.stop.isSome = true)) := by
  refine ⟨?_, ?_, ?_⟩
  · rintro ⟨p, mt, te, tk, tp, st, sp⟩
    cases mt <;> cases te <;> cases tk <;> cases tp <;> cases st <;> cases sp <;> rfl
  · intro p
    rfl
  · rintro ⟨p, mt, te, tk, tp, st, sp⟩
    cases mt <;> cases te <;> cases tk <;> cases tp <;> cases st <;> cases sp <;>
      simp [serializeRequest]

/-- C7 counterexample: a `MaxTokens` of 2048 validated against GptJ6B
(ceiling 2048) can be installed on a builder whose own engine is Boris6B
(ceiling 1024); the payload produced by the terminal operation then carries
a max_tokens value exceeding the ceiling of the engine the request is sent
to. -/
theorem C7_counterexample :
    MaxTokens.new 2048 .gptJ6B = some ⟨2048⟩ ∧
    (((TextCompletionBuilder.new ⟨sampleTextSynth, .boris6B⟩ "p").setMaxTokens
        ⟨2048⟩).now_request none).max_tokens = some ⟨2048⟩ ∧
    ¬ ((2048 : Nat) ≤
        ((TextCompletionBuilder.new ⟨sampleTextSynth, .boris6B⟩
          "p").setMaxTokens ⟨2048⟩).engine.definition.max_tokens) := by
  decide

/-- C7 (amended): every payload produced by a terminal operation carries
exactly the builder's accumulated `max_tokens`, and that value satisfies
the token-ceiling bound of the engine definition it was validated against
at construction — but nothing ties that engine definition to the builder's
own engine. -/
theorem C7_payload_max_tokens_validated (b : TextCompletionBuilder)
    (stop : Option Stop) (v : Nat) (e : EngineDefinition) (m : MaxTokens)
    (hnew : MaxTokens.new v e = some m) (hb : b.max_tokens = some m) :
    (b.now_request stop).max_tokens = some m ∧
    (b.stream_request).max_tokens = some m ∧
    m.val ≤ e.max_tokens := by
  refine ⟨hb, hb, ?_⟩
  unfold MaxTokens.new at hnew
  split at hnew
  · injection hnew with h2
    rw [← h2]
    assumption
  · cases hnew

/-- C7 witness: the amended statement instantiated at a builder whose
max_tokens was validated against its own engine. -/
theorem C7_witness :
    (((TextCompletionBuilder.new ⟨sampleTextSynth, .gptJ6B⟩ "p").setMaxTokens
        ⟨100⟩).now_request none).max_tokens = some ⟨100⟩ ∧
    (100 : Nat) ≤ EngineDefinition.gptJ6B.max_tokens :=
  ⟨(C7_payload_max_tokens_validated
      ((TextCompletionBuilder.new ⟨sampleTextSynth, .gptJ6B⟩ "p").setMaxTokens ⟨100⟩)
      none 100 .gptJ6B ⟨100⟩ (by decide) rfl).1,
   (C7_payload_max_tokens_validated
      ((TextCompletionBuilder.new ⟨sampleTextSynth, .gptJ6B⟩ "p").setMaxTokens ⟨100⟩)
      none 100 .gptJ6B ⟨100⟩ (by decide) rfl).2.2⟩

/-- C8: the per-chunk transformation is defined exactly on delivered chunks
of length at least 2 — there it removes exactly the final two bytes and
JSON-parses the remainder — while on a delivered chunk of length 0 or 1 the
length subtraction underflows and the step panics (`none`) instead of
producing a layered outcome. -/
theorem C8_stream_chunk_domain :
    (∀ bytes : List Char, 2 ≤ bytes.length →
      streamStep (.ok bytes)
        = some (.ok ((from_slice_untagged (bytes.take (bytes.length - 2))).map
            UntaggedResult.toResult)) ∧
      bytes.take (bytes.length - 2) ++ bytes.drop (bytes.length - 2) = bytes ∧
      (bytes.drop (bytes.length - 2)).length = 2) ∧
    (∀ bytes : List Char, bytes.length < 2 → streamStep (.ok bytes) = none) := by
  constructor
  · intro bytes h
    refine ⟨?_, List.take_append_drop _ _, ?_⟩
    · simp only [streamStep, usizeSub, bytesSliceTo]
      rw [if_pos h, Option.some_bind, if_pos (Nat.sub_le _ _)]
      rfl
    · rw [List.length_drop]
      omega
  · intro bytes h
    simp only [streamStep, usizeSub]
    rw [if_neg (by omega)]
    rfl

/-- C8 witness: the step evaluates on a four-byte chunk and panics on the
empty chunk. -/
theorem C8_witness :
    streamStep (.ok ['a', 'b', '\n', '\n'])
      = some (.ok ((from_slice_untagged (['a', 'b', '\n', '\n'].take 2)).map
          UntaggedResult.toResult)) ∧
    streamStep (.ok ([] : List Char)) = none :=
  ⟨(C8_stream_chunk_domain.1 ['a', 'b', '\n', '\n'] (by decide)).1,
   C8_stream_chunk_domain.2 [] (by decide)⟩

/-- C10: `TopP::new` accepts exactly the finite values of the closed unit
interval: every finite `p` with `0 ≤ p ≤ 1` is accepted (both boundaries
included), every finite `p` outside is rejected, and the non-finite values
NaN and the infinities are rejected. -/
theorem C10_top_p_unit_interval :
    (∀ q : ℚ, 0 ≤ q → q ≤ 1 → (TopP.new (.finite q)).isSome = true) ∧
    (∀ q : ℚ, q < 0 ∨ 1 < q → TopP.new (.finite q) = none) ∧
    TopP.new .nan = none ∧
    TopP.new .negInf = none ∧
    TopP.new .posInf = none ∧
    (TopP.new (.finite 0)).isSome = true ∧
    (TopP.new (.finite 1)).isSome = true := by
  refine ⟨?_, ?_, rfl, rfl, rfl, by decide, by decide⟩
  · intro q h0 h1
    simp [TopP.new, F64.le, h0, h1]
  · intro q h
    rcases h with h | h
    · simp [TopP.new, F64.le, not_le.mpr h]
    · simp [TopP.new, F64.le, not_le.mpr h]

/-- C5 counterexample: a JSON object carrying the error shape's `status` and
`error` fields but also the success shape's required fields decodes to the
success variant, not the failure variant, because the untagged decode tries
the success variant first — so the claim's universal "carrying status and
error yields failure" is false at this input. -/
theorem C5_counterexample :
    jsonLookup overlapFields "status" = some (.num 400) ∧
    jsonLookup overlapFields "error" = some (.str "boom") ∧
    (deserUntagged (.obj overlapFields)).map UntaggedResult.isErr = some false :=
  ⟨rfl, rfl, rfl⟩

/-- C5 (amended): decoding the untagged envelope is driven purely by field
shape with the success variant tried first: a JSON value matching the
success shape decodes to the success variant; one carrying `status` and
`error` that does not match the success shape decodes to the failure
variant, whose Error preserves the wire values of the first `status` and
`error` fields; and the envelope converts to and from the success/failure
result type losslessly in both directions. -/
theorem C5_untagged_envelope :
    (∀ (j : Json) (tc : TextCompletion),
      deserTextCompletion j = some tc → deserUntagged j = some (.Ok tc)) ∧
    (∀ (j : Json) (e : Error),
      deserTextCompletion j = none → deserError j = some e →
      deserUntagged j = some (.Err e)) ∧
    (∀ (fields : List (String × Json)) (e : Error),
      deserError (.obj fields) = some e →
      jsonLookup fields "status" = some (.num (e.status : Int)) ∧
      jsonLookup fields "error" = some (.str e.error)) ∧
    (∀ r : Except Error TextCompletion, (UntaggedResult.ofResult r).toResult = r) ∧
    (∀ u : UntaggedResult TextCompletion Error,
      UntaggedResult.ofResult u.toResult = u) := by
  refine ⟨?_, ?_, ?_, ?_, ?_⟩
  · intro j tc h
    unfold deserUntagged
    rw [h]
  · intro j e h1 h2
    unfold deserUntagged
    rw [h1, h2]
  · intro fields e h
    simp only [deserError] at h
    split at h
    · next slots hfold =>
      split at h
      · next n s hs herr =>
        injection h with h2
        subst h2
        obtain ⟨m, hm, hm1, hm2, hmn⟩ :=
          foldErr_status_extract fields ⟨none, none⟩ slots n rfl hfold hs
        have hse := foldErr_error_extract fields ⟨none, none⟩ slots s rfl hfold herr
        have hproj1 : ({ status := n, error := s } : Error).status = n := rfl
        have hproj2 : ({ status := n, error := s } : Error).error = s := rfl
        constructor
        · rw [hm, hproj1]
          have hnm : (n : Int) = m := by omega
          rw [hnm]
        · rw [hproj2]
          exact hse
      · cases h
    · cases h
  · intro r
    cases r <;> rfl
  · intro u
    cases u <;> rfl

/-- C5 witness: the amended statement instantiated at a pure error object
and a pure success object. -/
theorem C5_witness :
    deserUntagged (.obj [("status", Json.num 404), ("error", Json.str "not found")])
      = some (.Err ⟨404, "not found"⟩) ∧
    deserUntagged (.obj [("text", Json.str "a"), ("reached_end", Json.bool true)])
      = some (.Ok ⟨"a", true, none, none⟩) :=
  ⟨C5_untagged_envelope.2.1 _ ⟨404, "not found"⟩ rfl rfl,
   C5_untagged_envelope.1 _ ⟨"a", true, none, none⟩ rfl⟩

/-- C9: for every decoded TextCompletion, the `truncated_prompt()` accessor
returns false when the wire object had no `truncated_prompt` field, and
returns exactly the wire boolean when the field was present. -/
theorem C9_truncated_prompt (fields : List (String × Json)) (tc : TextCompletion)
    (h : deserTextCompletion (.obj fields) = some tc) :
    (jsonLookup fields "truncated_prompt" = none → tc.truncatedPrompt = false) ∧
    (∀ b : Bool, jsonLookup fields "truncated_prompt" = some (.bool b) →
      tc.truncatedPrompt = b) := by
  simp only [deserTextCompletion] at h
  split at h
  · next slots hfold =>
    split at h
    · next t re ht hre =>
      injection h with h2
      subst h2
      constructor
      · intro habs
        have hnone := foldTC_tp_absent fields ⟨none, none, none, none⟩ slots habs hfold
        unfold TextCompletion.truncatedPrompt
        simp [hnone]
      · intro b hp
        have hsome := foldTC_tp_present fields ⟨none, none, none, none⟩ slots b hp rfl hfold
        unfold TextCompletion.truncatedPrompt
        simp [hsome]
    · cases h
  · cases h

/-- C9 witness: the accessor defaults to false on an object without the
field and reflects the wire boolean on an object carrying it. -/
theorem C9_witness :
    deserTextCompletion (.obj [("text", Json.str "a"), ("reached_end", Json.bool true)])
      = some ⟨"a", true, none, none⟩ ∧
    (⟨"a", true, none, none⟩ : TextCompletion).truncatedPrompt = false ∧
    deserTextCompletion (.obj [("text", Json.str "a"), ("reached_end", Json.bool true),
        ("truncated_prompt", Json.bool true)])
      = some ⟨"a", true, some true, none⟩ ∧
    (⟨"a", true, some true, none⟩ : TextCompletion).truncatedPrompt = true :=
  ⟨by decide,
   (C9_truncated_prompt [("text", Json.str "a"), ("reached_end", Json.bool true)]
      ⟨"a", true, none, none⟩ (by decide)).1 rfl,
   by decide,
   (C9_truncated_prompt [("text", Json.str "a"), ("reached_end", Json.bool true),
        ("truncated_prompt", Json.bool true)]
      ⟨"a", true, some true, none⟩ (by decide)).2 true rfl⟩

/-- C10 witness: the quantified parts instantiated at concrete rationals. -/
theorem C10_witness :
    (TopP.new (.finite (1 / 2))).isSome = true ∧
    TopP.new (.finite 2) = none ∧
    TopP.new (.finite (-1)) = none :=
  ⟨C10_top_p_unit_interval.1 (1 / 2) (by norm_num) (by norm_num),
   C10_top_p_unit_interval.2.1 2 (Or.inr (by norm_num)),
   C10_top_p_unit_interval.2.1 (-1) (Or.inl (by norm_num))⟩

end Spec2Proof
